import Mathlib

/-!
Verification development for the yardstick MCP echo server and client
(StacklokLabs/yardstick). The Go sources are shallowly embedded as
executable Lean definitions: the alphanumeric validator is embedded via a
Brzozowski-derivative matcher for the compiled pattern, the echo tool
handler, auth gate, transport selector, configuration parsing and the
client main control flow are embedded as pure functions (process effects
such as log output and exits are reified as returned values / event
traces).
-/

namespace Yardstick

/-! ### Regular expression engine

Embedding of the matching semantics of Go `regexp` for the anchored
pattern `^[a-zA-Z0-9]+$` compiled in `cmd/server/main.go`
(`alphanumericRegex`).  Matching an anchored pattern is full-string
matching of the regular expression between the anchors; we realise it
with Brzozowski derivatives. -/

/-- Regular expressions over characters; `cls p` matches a single
character satisfying the class predicate `p`. -/
inductive Regex where
  | emp : Regex
  | eps : Regex
  | cls (p : Char → Bool) : Regex
  | cat (r1 r2 : Regex) : Regex
  | alt (r1 r2 : Regex) : Regex
  | star (r : Regex) : Regex

/-- Whether a regular expression accepts the empty string. -/
def Regex.nullable : Regex → Bool
  | .emp => false
  | .eps => true
  | .cls _ => false
  | .cat r1 r2 => r1.nullable && r2.nullable
  | .alt r1 r2 => r1.nullable || r2.nullable
  | .star _ => true

/-- Brzozowski derivative of a regular expression by a character. -/
def Regex.deriv : Regex → Char → Regex
  | .emp, _ => .emp
  | .eps, _ => .emp
  | .cls p, c => if p c then .eps else .emp
  | .cat r1 r2, c =>
      if r1.nullable then .alt (.cat (r1.deriv c) r2) (r2.deriv c)
      else .cat (r1.deriv c) r2
  | .alt r1 r2, c => .alt (r1.deriv c) (r2.deriv c)
  | .star r, c => .cat (r.deriv c) (.star r)

/-- Full-string matching by iterated derivatives. -/
def Regex.matchList : Regex → List Char → Bool
  | r, [] => r.nullable
  | r, c :: cs => (r.deriv c).matchList cs

/-- The character class `[a-zA-Z0-9]` of the pattern `^[a-zA-Z0-9]+$`. -/
def isAlnumChar (c : Char) : Bool :=
  (97 ≤ c.toNat && c.toNat ≤ 122) ||
  (65 ≤ c.toNat && c.toNat ≤ 90) ||
  (48 ≤ c.toNat && c.toNat ≤ 57)

/-- `var alphanumericRegex = regexp.MustCompile(` the pattern
`[a-zA-Z0-9]+` between the `^`/`$` anchors `)`; `e+` is `e · e*`. -/
def alphanumericRegex : Regex :=
  .cat (.cls isAlnumChar) (.star (.cls isAlnumChar))

/-- `func validateAlphanumeric(input string) bool` from
`cmd/server/main.go`: `alphanumericRegex.MatchString(input)`. -/
def validateAlphanumeric (input : String) : Bool :=
  alphanumericRegex.matchList input.data

/-- Spec-side predicate: `c` is an ASCII letter (`a`-`z`, `A`-`Z`) or an
ASCII digit (`0`-`9`).  Written from the spec words, to be compared with
the character class compiled from the source pattern. -/
def IsAsciiLetterOrDigit (c : Char) : Prop :=
  (97 ≤ c.toNat ∧ c.toNat ≤ 122) ∨
  (65 ≤ c.toNat ∧ c.toNat ≤ 90) ∨
  (48 ≤ c.toNat ∧ c.toNat ≤ 57)

instance (c : Char) : Decidable (IsAsciiLetterOrDigit c) := by
  unfold IsAsciiLetterOrDigit; infer_instance

/-! ### MCP data model

Embedding of the slice of the `mcp` SDK types that the echo handler
constructs or reads: `mcp.TextContent`, `mcp.CallToolResult` (its
`Content`, `IsError` and `Meta` fields), `mcp.CallToolRequest` with its
`Params.Meta`, and the tool request/response structs.  `mcp.Meta` is a
`map[string]any`; it is embedded as an association list from keys to an
inductive value type (the handler never inspects the values). -/

/-- Opaque metadata values (Go `any`): enough shapes to state the
metadata claims; the embedded code only passes them through. -/
inductive MetaValue where
  | str (s : String) : MetaValue
  | num (n : Int) : MetaValue
deriving DecidableEq

/-- `mcp.Meta` (`map[string]any`): nil and empty maps are both `[]`. -/
abbrev Meta := List (String × MetaValue)

/-- `mcp.Content`: the handler only ever builds `mcp.TextContent`. -/
inductive Content where
  | text (s : String) : Content
deriving DecidableEq

/-- `mcp.CallToolResult` (fields used by this repository). -/
structure CallToolResult where
  content : List Content := []
  isError : Bool := false
  meta : Meta := []
deriving DecidableEq

/-- `mcp.CallToolParamsRaw` (field used by this repository). -/
structure CallToolParamsRaw where
  meta : Meta := []
deriving DecidableEq

/-- `mcp.CallToolRequest`: `Params *mcp.CallToolParamsRaw` (a nil
pointer is `none`). -/
structure CallToolRequest where
  params : Option CallToolParamsRaw := none
deriving DecidableEq

/-- `type EchoRequest struct { Input string }`. -/
structure EchoRequest where
  input : String
deriving DecidableEq

/-- `type EchoResponse struct { Output string }`. -/
structure EchoResponse where
  output : String
deriving DecidableEq

/-- `func echoHandler(_ context.Context, _ *mcp.CallToolRequest, params
EchoRequest) (*mcp.CallToolResult, EchoResponse, error)` from
`cmd/server/main.go`.  The nil result pointer is `none`, the Go `error`
is `Option String` (`none` is a nil error).  The request argument is
ignored by the source, exactly as the `_` binder there says. -/
def echoHandler (_req : CallToolRequest) (params : EchoRequest) :
    Option CallToolResult × EchoResponse × Option String :=
  if ! validateAlphanumeric params.input then
    (some { content := [Content.text "input must be alphanumeric only"],
            isError := true },
     { output := "" }, none)
  else
    (none, { output := params.input }, none)

/-! ### HTTP headers and the auth gate

`checkAuth` reads one header through Go `http.Header.Get`, which looks
the name up under its canonical MIME form (`net/textproto`
`CanonicalMIMEHeaderKey`) and yields the first value, or the empty
string when the header is absent.  Headers are embedded as association
lists from (stored, canonical) names to value lists. -/

/-- `net/textproto` `validHeaderFieldByte`: RFC token characters. -/
def validHeaderFieldByte (c : Char) : Bool :=
  let n := c.toNat
  (48 ≤ n && n ≤ 57) || (65 ≤ n && n ≤ 90) || (97 ≤ n && n ≤ 122) ||
  [33, 35, 36, 37, 38, 39, 42, 43, 45, 46, 94, 95, 96, 124, 126].contains n

/-- Case transformation of `canonicalMIMEHeaderKey`: uppercase the first
letter and each letter following a hyphen, lowercase the rest. -/
def canonicalChars : Bool → List Char → List Char
  | _, [] => []
  | upper, c :: cs =>
      let c2 :=
        if upper && 97 ≤ c.toNat && c.toNat ≤ 122 then Char.ofNat (c.toNat - 32)
        else if !upper && 65 ≤ c.toNat && c.toNat ≤ 90 then Char.ofNat (c.toNat + 32)
        else c
      c2 :: canonicalChars (c2 == Char.ofNat 45) cs

/-- `textproto.CanonicalMIMEHeaderKey`: returns the argument unchanged
when it contains a non-token byte, else canonicalises the case. -/
def canonicalMIMEHeaderKey (s : String) : String :=
  if s.data.all validHeaderFieldByte then ⟨canonicalChars true s.data⟩ else s

/-- `http.Header`: map from canonical header names to value lists. -/
abbrev Header := List (String × List String)

/-- `http.Header.Get`: first value of the canonicalised key, or `""`. -/
def headerGet (h : Header) (key : String) : String :=
  match List.lookup (canonicalMIMEHeaderKey key) h with
  | some (v :: _) => v
  | _ => ""

/-- The slice of `*http.Request` that `checkAuth` reads. -/
structure Request where
  header : Header := []

/-- `func checkAuth(r *http.Request) error` from `cmd/server/main.go`.
The package-level `authHeader` / `authValue` globals are passed
explicitly; a Go `error` is `Option String` (`none` is nil). -/
def checkAuth (authHeader authValue : String) (r : Request) : Option String :=
  if authHeader = "" then none
  else if headerGet r.header authHeader ≠ authValue then some "unauthorized"
  else none

/-- Outcome of one request through `authWrapper`: either rejected with
an HTTP status and the error text handed to `http.Error`, or forwarded
to the wrapped handler. -/
inductive WrapperOutcome (α : Type) where
  | rejected (status : Nat) (body : String) : WrapperOutcome α
  | forwarded (a : α) : WrapperOutcome α
deriving DecidableEq

/-- `func authWrapper(next http.Handler) http.Handler` from
`cmd/server/main.go`: on a `checkAuth` failure it answers
`http.StatusUnauthorized` (401) with the error text and never invokes
`next`; otherwise it serves the request with `next`. -/
def authWrapper (authHeader authValue : String) (next : Request → α)
    (r : Request) : WrapperOutcome α :=
  match checkAuth authHeader authValue r with
  | some e => .rejected 401 e
  | none => .forwarded (next r)

/-! ### Server startup: transport selection

The `switch transport` at the end of `func main` in
`cmd/server/main.go`, reified as the terminal run mode the process
enters. -/

/-- The four terminal outcomes of the server `switch transport`:
serve one of the three transports, or write the diagnostic lines to
stderr and exit with the given status. -/
inductive ServerAction where
  | runStdio : ServerAction
  | serveSSE (port : Int) : ServerAction
  | serveStreamableHTTP (port : Int) : ServerAction
  | exitError (stderr : List String) (status : Nat) : ServerAction
deriving DecidableEq

/-- The `switch transport { case "stdio" ... "sse" ... "streamable-http"
... default ... }` of the server `main`.  In the default case the source
prints two lines to `os.Stderr` and calls `os.Exit(1)` without mounting
any handler or listener. -/
def runTransport (transport : String) (port : Int) : ServerAction :=
  if transport = "stdio" then .runStdio
  else if transport = "sse" then .serveSSE port
  else if transport = "streamable-http" then .serveStreamableHTTP port
  else
    .exitError
      ["Unknown transport type: " ++ transport,
       "Supported transports: stdio, sse, streamable-http"] 1

/-! ### Server configuration parsing

`func parseConfig()` of `cmd/server/main.go`.  The flag results are
passed in (`none` means the flag was not given, so its default applies);
the process environment is an association list, `os.LookupEnv` is a
lookup and `os.Getenv` additionally defaults to `""`. -/

/-- Process environment. -/
abbrev Env := List (String × String)

/-- `os.LookupEnv`. -/
def lookupEnv (env : Env) (key : String) : Option String :=
  List.lookup key env

/-- `os.Getenv`: the value, or `""` when the variable is absent. -/
def getenv (env : Env) (key : String) : String :=
  (lookupEnv env key).getD ""

/-- `strconv.Atoi`: optional sign, at least one ASCII digit, nothing
else, and the value must fit a 64-bit `int`; otherwise an error
(`none`). -/
def atoi (s : String) : Option Int :=
  let signDigits : Int × List Char :=
    match s.data with
    | c :: rest =>
        if c = Char.ofNat 43 then (1, rest)
        else if c = Char.ofNat 45 then (-1, rest)
        else (1, s.data)
    | [] => (1, [])
  let sign := signDigits.1
  let digits := signDigits.2
  if digits = [] then none
  else if digits.all (fun c => 48 ≤ c.toNat && c.toNat ≤ 57) then
    let n : Int := digits.foldl (fun acc c => acc * 10 + (Int.ofNat (c.toNat - 48))) 0
    let v := sign * n
    if v < -(2 ^ 63) || 2 ^ 63 - 1 < v then none else some v
  else none

/-- The four package-level configuration globals that `parseConfig`
assigns: `transport`, `port`, `authHeader`, `authValue`. -/
structure ServerConfig where
  transport : String
  port : Int
  authHeader : String
  authValue : String
deriving DecidableEq

/-- `func parseConfig()` from `cmd/server/main.go`: flag defaults
`"stdio"` / `8080`; then `MCP_TRANSPORT` overrides the transport when
set, `PORT` overrides the port when set and `strconv.Atoi` succeeds, and
`authHeader` / `authValue` are read with `os.Getenv` from `AUTH_HEADER`
/ `AUTH_VALUE`. -/
def parseConfig (flagTransport : Option String) (flagPort : Option Int)
    (env : Env) : ServerConfig :=
  let transport0 := flagTransport.getD "stdio"
  let port0 := flagPort.getD 8080
  let transport :=
    match lookupEnv env "MCP_TRANSPORT" with
    | some t => t
    | none => transport0
  let port :=
    match lookupEnv env "PORT" with
    | some p =>
        match atoi p with
        | some v => v
        | none => port0
    | none => port0
  { transport := transport, port := port,
    authHeader := getenv env "AUTH_HEADER",
    authValue := getenv env "AUTH_VALUE" }

/-! ### Client control flow

`func main` of `cmd/client/main.go`, reified as the ordered trace of
observable events of one invocation.  External outcomes (the session
handshake, the JSON unmarshal of the `-args` blob, and the per-action
SDK calls) are inputs, since they depend on the outside world; the
embedding fixes only what the source fixes: which events happen and in
which order. -/

/-- Observable events of a client run.  `handshake` is the network
activity of `mcp.Client.Connect` (and, for stdio, the subprocess
start-up); `fatal` is a `log.Fatal` exit (which skips deferred calls);
`closed` is the deferred `client.Close` running at normal exit. -/
inductive ClientEvent where
  | handshake (transport : String) : ClientEvent
  | getServerInfo : ClientEvent
  | listTools : ClientEvent
  | listResources : ClientEvent
  | callTool (name : String) : ClientEvent
  | fatal (msg : String) : ClientEvent
  | closed : ClientEvent
deriving DecidableEq

/-- Events that involve network traffic with the server: the session
handshake and a tool call issued over the session. -/
def isNetworkEvent : ClientEvent → Bool
  | .handshake _ => true
  | .callTool _ => true
  | _ => false

/-- Outcomes of the external calls an action performs (`none` is a nil
Go error). -/
structure ActionWorld where
  infoErr : Option String := none
  listToolsErr : Option String := none
  listResourcesErr : Option String := none
  callErr : Option String := none

/-- `func (c *Client) Connect(ctx context.Context) error`: the
`switch c.config.Transport` first constructs a transport — failing
without any network activity for an unsupported transport name or a
stdio transport with no command — and only then performs the session
handshake, whose outcome `handshakeErr` is an input.  Returns the
emitted events and the returned error. -/
def clientConnect (transport command : String) (handshakeErr : Option String) :
    List ClientEvent × Option String :=
  if transport = "stdio" then
    if command = "" then
      ([], some "failed to create transport: command is required for stdio transport")
    else ([.handshake "stdio"], handshakeErr)
  else if transport = "sse" then ([.handshake "sse"], handshakeErr)
  else if transport = "streamable-http" then
    ([.handshake "streamable-http"], handshakeErr)
  else ([], some ("unsupported transport type: " ++ transport))

/-- The `switch action` of the client `main`: the events after a
successful connect.  For `"call-tool"` the tool name is checked, then
the `-args` JSON blob is unmarshalled (`argsErr` is the outcome of
`json.Unmarshal`; `none` means the blob was well-formed), and only then
is the tool called.  Every failure is a `log.Fatal`, which exits without
running the deferred `client.Close`. -/
def clientAction (action toolName : String) (argsErr : Option String)
    (w : ActionWorld) : List ClientEvent :=
  if action = "info" then
    .getServerInfo ::
      (match w.infoErr with
       | some e => [.fatal ("Failed to get server info: " ++ e)]
       | none => [.closed])
  else if action = "list-tools" then
    .listTools ::
      (match w.listToolsErr with
       | some e => [.fatal ("Failed to list tools: " ++ e)]
       | none => [.closed])
  else if action = "list-resources" then
    .listResources ::
      (match w.listResourcesErr with
       | some e => [.fatal ("Failed to list resources: " ++ e)]
       | none => [.closed])
  else if action = "call-tool" then
    if toolName = "" then [.fatal "Tool name is required for call-tool action"]
    else
      match argsErr with
      | some e => [.fatal ("Failed to parse tool arguments: " ++ e)]
      | none =>
          .callTool toolName ::
            (match w.callErr with
             | some e => [.fatal ("Failed to call tool: " ++ e)]
             | none => [.closed])
  else [.fatal ("Unknown action: " ++ action)]

/-- `func main` of `cmd/client/main.go` after configuration parsing:
`client.Connect` first — it is fatal on error — and only afterwards the
action dispatch, so the `-args` blob of `call-tool` is parsed after the
connection attempt. -/
def clientMain (transport command action toolName : String)
    (handshakeErr argsErr : Option String) (w : ActionWorld) :
    List ClientEvent :=
  (clientConnect transport command handshakeErr).1 ++
    match (clientConnect transport command handshakeErr).2 with
    | some e => [.fatal ("Failed to connect to MCP server: " ++ e)]
    | none => clientAction action toolName argsErr w

/-- The claim under test for the client: a malformed `-args` blob is
fatal before any network activity, for every invocation of the
call-tool action. -/
def ClientNoNetworkOnMalformedArgs : Prop :=
  ∀ (transport command toolName parseMsg : String)
    (handshakeErr : Option String) (w : ActionWorld),
    (clientMain transport command "call-tool" toolName handshakeErr
        (some parseMsg) w).any isNetworkEvent = false

/-- The distinct batch inputs `"test0"` … `"test99"` of the spec's
concurrency property. -/
def testInputs : List String :=
  ["test0", "test1", "test2", "test3", "test4", "test5", "test6",
   "test7", "test8", "test9", "test10", "test11", "test12", "test13",
   "test14", "test15", "test16", "test17", "test18", "test19", "test20",
   "test21", "test22", "test23", "test24", "test25", "test26", "test27",
   "test28", "test29", "test30", "test31", "test32", "test33", "test34",
   "test35", "test36", "test37", "test38", "test39", "test40", "test41",
   "test42", "test43", "test44", "test45", "test46", "test47", "test48",
   "test49", "test50", "test51", "test52", "test53", "test54", "test55",
   "test56", "test57", "test58", "test59", "test60", "test61", "test62",
   "test63", "test64", "test65", "test66", "test67", "test68", "test69",
   "test70", "test71", "test72", "test73", "test74", "test75", "test76",
   "test77", "test78", "test79", "test80", "test81", "test82", "test83",
   "test84", "test85", "test86", "test87", "test88", "test89", "test90",
   "test91", "test92", "test93", "test94", "test95", "test96", "test97",
   "test98", "test99"]

/-! ### Lemmas about the derivative matcher -/

theorem matchList_alt (l : List Char) (r1 r2 : Regex) :
    (Regex.alt r1 r2).matchList l = (r1.matchList l || r2.matchList l) := by
  induction l generalizing r1 r2 with
  | nil => rfl
  | cons c cs ih => simpa [Regex.matchList, Regex.deriv] using ih (r1.deriv c) (r2.deriv c)

theorem matchList_cat_emp (l : List Char) (r : Regex) :
    (Regex.cat .emp r).matchList l = false := by
  induction l generalizing r with
  | nil => rfl
  | cons c cs ih => simpa [Regex.matchList, Regex.deriv, Regex.nullable] using ih r

theorem matchList_cat_eps (l : List Char) (r : Regex) :
    (Regex.cat .eps r).matchList l = r.matchList l := by
  cases l with
  | nil => simp [Regex.matchList, Regex.nullable]
  | cons c cs =>
      simp [Regex.matchList, Regex.deriv, Regex.nullable, matchList_alt,
        matchList_cat_emp]

theorem matchList_star_cls (l : List Char) (p : Char → Bool) :
    (Regex.star (.cls p)).matchList l = l.all p := by
  induction l with
  | nil => rfl
  | cons c cs ih =>
      by_cases h : p c
      · simp [Regex.matchList, Regex.deriv, h, matchList_cat_eps, ih]
      · simp [Regex.matchList, Regex.deriv, h, matchList_cat_emp]

theorem validateAlphanumeric_eq (s : String) :
    validateAlphanumeric s = (!s.data.isEmpty && s.data.all isAlnumChar) := by
  unfold validateAlphanumeric alphanumericRegex
  cases hs : s.data with
  | nil => rfl
  | cons c cs =>
      by_cases h : isAlnumChar c
      · simp [Regex.matchList, Regex.deriv, Regex.nullable, h, matchList_cat_eps,
          matchList_star_cls]
      · simp [Regex.matchList, Regex.deriv, Regex.nullable, h, matchList_cat_emp]

theorem string_eq_empty_iff (s : String) : s = "" ↔ s.data = [] := by
  constructor
  · intro h; rw [h]
  · intro h
    cases s with
    | mk l =>
        have hl : l = [] := h
        subst hl
        rfl

/-! ### Claim theorems -/

/-- C2: `validateAlphanumeric` returns true iff the string is non-empty
and every character is an ASCII letter or digit; in particular it is
false for the empty string and for any string with a character outside
those ranges, with no length limit. -/
theorem validateAlphanumeric_spec (s : String) :
    validateAlphanumeric s = true ↔ s ≠ "" ∧ ∀ c ∈ s.data, IsAsciiLetterOrDigit c := by
  rw [validateAlphanumeric_eq, Bool.and_eq_true, List.all_eq_true, Bool.not_eq_true']
  constructor
  · rintro ⟨h1, h2⟩
    refine ⟨fun hs => ?_, fun c hc => ?_⟩
    · rw [(string_eq_empty_iff s).mp hs] at h1
      simp at h1
    · have := h2 c hc
      simpa [isAlnumChar, IsAsciiLetterOrDigit, Bool.or_eq_true, Bool.and_eq_true,
        decide_eq_true_eq, or_assoc] using this
  · rintro ⟨h1, h2⟩
    refine ⟨?_, fun c hc => ?_⟩
    · cases hd : s.data with
      | nil => exact absurd ((string_eq_empty_iff s).mpr hd) h1
      | cons c cs => simp [hd]
    · have := h2 c hc
      simpa [isAlnumChar, IsAsciiLetterOrDigit, Bool.or_eq_true, Bool.and_eq_true,
        decide_eq_true_eq, or_assoc] using this

/-- C1: for every string accepted by the validator, the echo handler's
response carries exactly the input string as its output, with no
transformation. -/
theorem echoHandler_identity (req : CallToolRequest) (s : String)
    (h : validateAlphanumeric s = true) :
    (echoHandler req { input := s }).2.1 = { output := s } := by
  simp [echoHandler, h]

/-- Witness for C1 at the spec's example input `"test123"`. -/
theorem echoHandler_identity_witness :
    validateAlphanumeric "test123" = true ∧
    (echoHandler { params := none } { input := "test123" }).2.1 =
      { output := "test123" } :=
  ⟨by decide, echoHandler_identity { params := none } "test123" (by decide)⟩

/-- C3: for every input rejected by the validator, the echo handler
returns a non-nil result flagged as an error whose sole content is the
fixed text, an empty response payload, and a nil Go error. -/
theorem echoHandler_invalid_result (req : CallToolRequest) (s : String)
    (h : validateAlphanumeric s = false) :
    echoHandler req { input := s } =
      (some { content := [Content.text "input must be alphanumeric only"],
              isError := true, meta := [] },
       { output := "" }, none) := by
  simp [echoHandler, h]

/-- Witness for C3 at the spec's example invalid input `"test 123"`. -/
theorem echoHandler_invalid_result_witness :
    validateAlphanumeric "test 123" = false ∧
    echoHandler { params := none } { input := "test 123" } =
      (some { content := [Content.text "input must be alphanumeric only"],
              isError := true, meta := [] },
       { output := "" }, none) :=
  ⟨by decide, echoHandler_invalid_result { params := none } "test 123" (by decide)⟩

/-- C4: the handler in `cmd/server/main.go` as present in the sources
ignores the request and returns a nil result for every valid input, so a
call that carries non-empty request metadata gets back no result (and
hence no echoed metadata) — contradicting the repository's own
`TestEchoHandler_WithMetadata` and the server README, which require the
result to carry the identical map. -/
theorem echoHandler_drops_request_metadata :
    echoHandler
        { params := some { meta := [("progressToken", MetaValue.str "test123")] } }
        { input := "hello" } =
      (none, { output := "hello" }, none) := by
  decide

/-- C6: the echo handler is deterministic and free of cross-talk: its
result does not depend on anything but the input (in particular not on
the surrounding request), and the batch of distinct inputs `"test0"` …
`"test99"` maps one-to-one to identical outputs. -/
theorem echoHandler_deterministic_batch :
    (∀ (req1 req2 : CallToolRequest) (p : EchoRequest),
        echoHandler req1 p = echoHandler req2 p) ∧
    testInputs.Nodup ∧
    testInputs.map (fun s => ((echoHandler { params := none } { input := s }).2.1).output)
      = testInputs := by
  refine ⟨fun req1 req2 p => rfl, by decide, by decide⟩

/-- C5: with an empty configured header name `checkAuth` accepts every
request; otherwise it accepts exactly the requests whose named header
value equals the expected value (case-sensitive string equality), fails
with `"unauthorized"` on all others, and `authWrapper` then answers 401
without ever reaching the wrapped handler. -/
theorem checkAuth_spec (ah av : String) (r : Request) :
    (ah = "" → checkAuth ah av r = none) ∧
    (ah ≠ "" → (checkAuth ah av r = none ↔ headerGet r.header ah = av)) ∧
    (∀ (α : Type) (next : Request → α),
      (checkAuth ah av r = none →
        authWrapper ah av next r = .forwarded (next r)) ∧
      (checkAuth ah av r ≠ none →
        checkAuth ah av r = some "unauthorized" ∧
        authWrapper ah av next r = .rejected 401 "unauthorized")) := by
  refine ⟨fun h => by simp [checkAuth, h], fun h => ?_, fun α next => ?_⟩
  · by_cases hv : headerGet r.header ah = av
    · simp [checkAuth, h, hv]
    · simp [checkAuth, h, hv]
  · constructor
    · intro h; simp [authWrapper, h]
    · intro h
      by_cases h0 : ah = ""
      · exact absurd (by simp [checkAuth, h0]) h
      · by_cases hv : headerGet r.header ah = av
        · exact absurd (by simp [checkAuth, h0, hv]) h
        · constructor
          · simp [checkAuth, h0, hv]
          · simp [authWrapper, checkAuth, h0, hv]

/-- Witness for C5 with the spec's example configuration
`X-Auth-Token` / `secret123`: the matching request passes and is
forwarded, the mismatching and the header-less requests are rejected
with 401 `unauthorized`, and with an empty configured name every
request passes. -/
theorem checkAuth_spec_witness :
    checkAuth "X-Auth-Token" "secret123"
        { header := [("X-Auth-Token", ["secret123"])] } = none ∧
    authWrapper "X-Auth-Token" "secret123" (fun _ => (0 : Nat))
        { header := [("X-Auth-Token", ["wrongvalue"])] } =
      .rejected 401 "unauthorized" ∧
    authWrapper "X-Auth-Token" "secret123" (fun _ => (0 : Nat))
        { header := [] } = .rejected 401 "unauthorized" ∧
    checkAuth "" "" { header := [("Anything", ["x"])] } = none := by
  refine ⟨?_, ?_, ?_, ?_⟩
  · exact ((checkAuth_spec "X-Auth-Token" "secret123" _).2.1 (by decide)).mpr (by decide)
  · exact (((checkAuth_spec "X-Auth-Token" "secret123" _).2.2 Nat
      (fun _ => 0)).2 (by decide)).2
  · exact (((checkAuth_spec "X-Auth-Token" "secret123" _).2.2 Nat
      (fun _ => 0)).2 (by decide)).2
  · exact (checkAuth_spec "" "" _).1 rfl

/-- C10: with a non-empty configured header name and an empty expected
value, a request that carries no entry for the named header reads as the
empty string and is accepted by `checkAuth`. -/
theorem checkAuth_missing_header_empty_value (ah : String) (r : Request)
    (hne : ah ≠ "")
    (hmiss : List.lookup (canonicalMIMEHeaderKey ah) r.header = none) :
    checkAuth ah "" r = none := by
  simp [checkAuth, headerGet, hmiss, hne]

/-- Witness for C10: authentication on `X-Auth-Token` with empty
expected value accepts a request carrying only an unrelated header. -/
theorem checkAuth_missing_header_empty_value_witness :
    checkAuth "X-Auth-Token" "" { header := [("Content-Type", ["text/plain"])] }
      = none :=
  checkAuth_missing_header_empty_value "X-Auth-Token"
    { header := [("Content-Type", ["text/plain"])] } (by decide) (by decide)

/-- C7: for every transport name other than the three supported ones,
server startup resolves to writing the two diagnostic lines — the second
naming all three supported transports — and exiting with status 1,
starting no listener. -/
theorem runTransport_unknown (t : String) (p : Int)
    (h1 : t ≠ "stdio") (h2 : t ≠ "sse") (h3 : t ≠ "streamable-http") :
    runTransport t p =
      .exitError
        ["Unknown transport type: " ++ t,
         "Supported transports: stdio, sse, streamable-http"] 1 := by
  simp [runTransport, h1, h2, h3]

/-- Witness for C7 at the unknown transport name `"tcp"`. -/
theorem runTransport_unknown_witness :
    runTransport "tcp" 8080 =
      .exitError
        ["Unknown transport type: tcp",
         "Supported transports: stdio, sse, streamable-http"] 1 :=
  runTransport_unknown "tcp" 8080 (by decide) (by decide) (by decide)

theorem callTool_not_mem_clientConnect (t c n : String) (he : Option String) :
    ClientEvent.callTool n ∉ (clientConnect t c he).1 := by
  unfold clientConnect
  split_ifs <;> simp

/-- C8 counterexample: an SSE client invocation of `call-tool` with a
malformed `-args` blob performs the session handshake (network activity)
before the blob is ever parsed, refuting the claim that a malformed blob
is fatal before any network activity. -/
theorem clientMain_network_before_parse : ¬ ClientNoNetworkOnMalformedArgs := by
  intro h
  have h0 := h "sse" "" "echo" "invalid JSON" none {}
  revert h0
  decide

/-- C8 amended: a malformed `-args` blob is fatal before the tool call
is issued — no tool call is ever performed — but only after the
connection attempt: when the connect phase succeeds, the run is exactly
the connect events followed by the fatal parse exit. -/
theorem clientMain_malformed_args_no_tool_call
    (transport command toolName msg : String) (handshakeErr : Option String)
    (w : ActionWorld) (hname : toolName ≠ "") :
    (∀ n, ClientEvent.callTool n ∉
        clientMain transport command "call-tool" toolName handshakeErr
          (some msg) w) ∧
    ((clientConnect transport command handshakeErr).2 = none →
      clientMain transport command "call-tool" toolName handshakeErr
          (some msg) w =
        (clientConnect transport command handshakeErr).1 ++
          [.fatal ("Failed to parse tool arguments: " ++ msg)]) := by
  constructor
  · intro n
    cases hc : (clientConnect transport command handshakeErr).2 with
    | some e =>
        simp [clientMain, hc, callTool_not_mem_clientConnect]
    | none =>
        simp [clientMain, hc, clientAction, hname, callTool_not_mem_clientConnect]
  · intro hc
    simp [clientMain, hc, clientAction, hname]

/-- Witness for the amended C8: a streamable-HTTP invocation with a
malformed blob runs the handshake, never calls the tool, and dies at
argument parsing. -/
theorem clientMain_malformed_args_no_tool_call_witness :
    (ClientEvent.callTool "echo" ∉
      clientMain "streamable-http" "" "call-tool" "echo" none (some "bad") {}) ∧
    clientMain "streamable-http" "" "call-tool" "echo" none (some "bad") {} =
      [.handshake "streamable-http",
       .fatal "Failed to parse tool arguments: bad"] := by
  constructor
  · exact (clientMain_malformed_args_no_tool_call "streamable-http" "" "echo"
      "bad" none {} (by decide)).1 "echo"
  · have h := (clientMain_malformed_args_no_tool_call "streamable-http" "" "echo"
      "bad" none {} (by decide)).2 (by decide)
    simpa [clientConnect] using h

/-- C9 counterexample: with the `TRANSPORT` environment variable set to
`"sse"` (and `MCP_TRANSPORT` unset), the parsed server transport stays
at the flag default `"stdio"`, refuting the claim that `TRANSPORT` acts
as a transport override for this server. -/
theorem parseConfig_ignores_TRANSPORT :
    (parseConfig none none [("TRANSPORT", "sse")]).transport = "stdio" ∧
    ("stdio" : String) ≠ "sse" := by
  decide

/-- C9 amended: after server configuration parsing, the transport equals
the `MCP_TRANSPORT` value when that variable is set (`TRANSPORT` is not
consulted) and the `--transport` flag value (default `"stdio"`)
otherwise; the port equals the integer value of `PORT` when set and
parseable, and the `--port` flag value (default `8080`) otherwise; and
the auth gate's expected header name and value are read from
`AUTH_HEADER` and `AUTH_VALUE`. -/
theorem parseConfig_spec (ft : Option String) (fp : Option Int) (env : Env) :
    ((∀ t, lookupEnv env "MCP_TRANSPORT" = some t →
        (parseConfig ft fp env).transport = t) ∧
     (lookupEnv env "MCP_TRANSPORT" = none →
        (parseConfig ft fp env).transport = ft.getD "stdio")) ∧
    ((∀ p v, lookupEnv env "PORT" = some p → atoi p = some v →
        (parseConfig ft fp env).port = v) ∧
     (∀ p, lookupEnv env "PORT" = some p → atoi p = none →
        (parseConfig ft fp env).port = fp.getD 8080) ∧
     (lookupEnv env "PORT" = none →
        (parseConfig ft fp env).port = fp.getD 8080)) ∧
    (parseConfig ft fp env).authHeader = getenv env "AUTH_HEADER" ∧
    (parseConfig ft fp env).authValue = getenv env "AUTH_VALUE" := by
  refine ⟨⟨fun t ht => ?_, fun ht => ?_⟩,
    ⟨fun p v hp hv => ?_, fun p hp hv => ?_, fun hp => ?_⟩, rfl, rfl⟩
  · simp [parseConfig, ht]
  · simp [parseConfig, ht]
  · simp [parseConfig, hp, hv]
  · simp [parseConfig, hp, hv]
  · simp [parseConfig, hp]

/-- Witness for the amended C9 on a concrete environment carrying all
four variables. -/
theorem parseConfig_spec_witness :
    (parseConfig none none
        [("MCP_TRANSPORT", "sse"), ("PORT", "9090"),
         ("AUTH_HEADER", "X-Auth-Token"), ("AUTH_VALUE", "secret123")]).transport
      = "sse" ∧
    (parseConfig none none
        [("MCP_TRANSPORT", "sse"), ("PORT", "9090"),
         ("AUTH_HEADER", "X-Auth-Token"), ("AUTH_VALUE", "secret123")]).port
      = 9090 ∧
    (parseConfig none none
        [("MCP_TRANSPORT", "sse"), ("PORT", "9090"),
         ("AUTH_HEADER", "X-Auth-Token"), ("AUTH_VALUE", "secret123")]).authHeader
      = "X-Auth-Token" ∧
    (parseConfig none none
        [("MCP_TRANSPORT", "sse"), ("PORT", "9090"),
         ("AUTH_HEADER", "X-Auth-Token"), ("AUTH_VALUE", "secret123")]).authValue
      = "secret123" := by
  refine ⟨?_, ?_, ?_, ?_⟩
  · exact (parseConfig_spec none none _).1.1 "sse" (by decide)
  · exact (parseConfig_spec none none _).2.1.1 "9090" 9090 (by decide) (by decide)
  · exact ((parseConfig_spec none none _).2.2.1).trans (by decide)
  · exact ((parseConfig_spec none none _).2.2.2).trans (by decide)

end Yardstick
